import Mathlib

/-!
# gone: authorization and authentication layer

A shallow embedding of the Go packages `filer`, `authenticator` and `editor`
of the `gone` wiki server, and theorems about them.

Conventions of the embedding.

* A Go method with a pointer receiver becomes a function that takes the
  receiver and returns its new value next to the result.
* The file system is explicit: a `World` maps paths to nodes and keeps the
  list of descriptor-level calls (`os.Open`, `os.Create`, reads, writes,
  closes) issued so far.
* A Go interface value of type `io.ReadCloser` / `io.WriteCloser` is an
  `Option File`: `none` is the nil interface, `some File.nilPtr` is an
  interface that holds a nil `*os.File`.
* A run-time panic (a method call on a nil interface) is the result `none`
  of the functions that can reach one.
* `log.Printf` calls write to the process log only and are left out.
-/

namespace gone

/-! ## Requests and the per-request authentication context -/

namespace context

/-- Modelled from the spec: the package `context` is not among the sources.
The per-request carrier of the resolved identity (spec 4.4): a user id, the
authenticated flag being derived from it. -/
structure Context where
  UserId : String
deriving DecidableEq, Repr

/-- Modelled from the spec: `isAuthenticated()` is simply `userId != ""`. -/
def Context.IsAuthenticated (c : Context) : Bool := c.UserId != ""

end context

/-- An incoming `*http.Request`. `Authorization` holds the user name and
secret of a well-formed Basic `Authorization` header, `Cookie` the session
cookie; `ctx` is the request-scoped storage that `context.Load` and
`Context.Save` read and write. -/
structure Request where
  Method : String
  URL : String
  Authorization : Option (String × String)
  Cookie : Option String
  ctx : context.Context
deriving DecidableEq, Repr

namespace context

/-- Modelled from the spec: `load(request)` reads the request-scoped storage. -/
def Load (request : Request) : Context := request.ctx

/-- Modelled from the spec: `context.save(request)` writes the request-scoped
storage of this one request. -/
def Context.Save (c : Context) (request : Request) : Request :=
  { request with ctx := c }

end context

/-! ## HTTP responses -/

/-- An `http.ResponseWriter`, as a recorder of what was sent: the status
line once written, the header and the body. -/
structure ResponseWriter where
  status : Option Nat
  header : List (String × String)
  body : String
deriving DecidableEq, Repr

/-- A response writer on which nothing has been written yet. -/
def ResponseWriter.fresh : ResponseWriter := ⟨none, [], ""⟩

/-- The call `w.Header().Set(key, value)`; it has no effect on the response
once the status line is written. -/
def ResponseWriter.SetHeader (w : ResponseWriter) (key value : String) : ResponseWriter :=
  if w.status.isSome then w
  else { w with header := (key, value) :: w.header.filter (fun kv => kv.1 != key) }

/-- The call `w.WriteHeader(code)`; only the first status line counts. -/
def ResponseWriter.WriteHeader (w : ResponseWriter) (code : Nat) : ResponseWriter :=
  if w.status.isSome then w else { w with status := some code }

/-- The call `io.WriteString(w, s)`; it sends status 200 when none was
written before. -/
def ResponseWriter.Write (w : ResponseWriter) (s : String) : ResponseWriter :=
  { w with status := some (w.status.getD 200), body := w.body ++ s }

/-- The type `http.HandlerFunc`: a handler acts on the response writer and
may change the request-scoped storage of the request. -/
abbrev HandlerFunc := ResponseWriter → Request → ResponseWriter × Request

/-! ## MD5 (RFC 1321) and the MD5-crypt scheme

Byte strings are stored as the little-endian number of their bytes together
with their length, and the arithmetic is written with the functions of `Nat`
themselves, so that a digest can be computed by evaluation. -/

namespace md5

/-- A byte string: the little-endian number of its bytes, and its length. -/
structure Bytes where
  val : Nat
  len : Nat

/-- The empty byte string. -/
def Bytes.empty : Bytes := ⟨0, 0⟩

/-- Concatenation of byte strings. -/
def Bytes.append (a b : Bytes) : Bytes :=
  ⟨Nat.add a.val (Nat.shiftLeft b.val (Nat.mul 8 a.len)), Nat.add a.len b.len⟩

/-- The byte at an index. -/
def Bytes.get (a : Bytes) (i : Nat) : Nat := Nat.mod (Nat.shiftRight a.val (Nat.mul 8 i)) 256

/-- The byte string of a list of bytes. -/
def Bytes.ofList : List Nat → Bytes
  | [] => Bytes.empty
  | b :: bs => Bytes.append ⟨b, 1⟩ (Bytes.ofList bs)

/-- The UTF-8 encoding of a character. -/
def utf8 (c : Char) : List Nat :=
  let n := c.toNat
  if n < 0x80 then [n]
  else if n < 0x800 then [0xC0 + n / 64, 0x80 + n % 64]
  else if n < 0x10000 then [0xE0 + n / 4096, 0x80 + n / 64 % 64, 0x80 + n % 64]
  else [0xF0 + n / 262144, 0x80 + n / 4096 % 64, 0x80 + n / 64 % 64, 0x80 + n % 64]

/-- The bytes of a Go string. -/
def Bytes.ofString (s : String) : Bytes := Bytes.ofList (s.data.flatMap utf8)

/-- The 32-bit word at an index of a little-endian number. -/
def word (t i : Nat) : Nat := Nat.mod (Nat.shiftRight t (Nat.mul 32 i)) 4294967296

/-- Addition modulo `2^32`. -/
def add32 (a b : Nat) : Nat := Nat.mod (Nat.add a b) 4294967296

/-- Rotation of a 32-bit word to the left. -/
def rotl (x c : Nat) : Nat :=
  Nat.lor (Nat.mod (Nat.shiftLeft x c) 4294967296) (Nat.shiftRight x (Nat.sub 32 c))

/-- Complement of a 32-bit word. -/
def not32 (x : Nat) : Nat := Nat.sub 4294967295 x

/-- Round 1 operation, with `F(b,c,d) = (b and c) or (not b and d)`. -/
def FF (a b c d x s ac : Nat) : Nat :=
  add32 b (rotl (add32 (add32 (add32 a (Nat.lor (Nat.land b c) (Nat.land (not32 b) d))) x) ac) s)

/-- Round 2 operation, with `G(b,c,d) = (b and d) or (c and not d)`. -/
def GG (a b c d x s ac : Nat) : Nat :=
  add32 b (rotl (add32 (add32 (add32 a (Nat.lor (Nat.land b d) (Nat.land c (not32 d)))) x) ac) s)

/-- Round 3 operation, with `H(b,c,d) = b xor c xor d`. -/
def HH (a b c d x s ac : Nat) : Nat :=
  add32 b (rotl (add32 (add32 (add32 a (Nat.xor (Nat.xor b c) d)) x) ac) s)

/-- Round 4 operation, with `I(b,c,d) = c xor (b or not d)`. -/
def II (a b c d x s ac : Nat) : Nat :=
  add32 b (rotl (add32 (add32 (add32 a (Nat.xor c (Nat.lor b (not32 d)))) x) ac) s)

/-- Four 32-bit words as one little-endian number. -/
def pack4 (a b c d : Nat) : Nat :=
  Nat.add (Nat.add (Nat.add a (Nat.shiftLeft b 32)) (Nat.shiftLeft c 64)) (Nat.shiftLeft d 96)

/-- The MD5 basic transformation of the state by one 64-byte block `x`. -/
def transform (st x : Nat) : Nat :=
  let a := word st 0
  let b := word st 1
  let c := word st 2
  let d := word st 3
  let a := FF a b c d (word x 0) 7 0xd76aa478
  let d := FF d a b c (word x 1) 12 0xe8c7b756
  let c := FF c d a b (word x 2) 17 0x242070db
  let b := FF b c d a (word x 3) 22 0xc1bdceee
  let a := FF a b c d (word x 4) 7 0xf57c0faf
  let d := FF d a b c (word x 5) 12 0x4787c62a
  let c := FF c d a b (word x 6) 17 0xa8304613
  let b := FF b c d a (word x 7) 22 0xfd469501
  let a := FF a b c d (word x 8) 7 0x698098d8
  let d := FF d a b c (word x 9) 12 0x8b44f7af
  let c := FF c d a b (word x 10) 17 0xffff5bb1
  let b := FF b c d a (word x 11) 22 0x895cd7be
  let a := FF a b c d (word x 12) 7 0x6b901122
  let d := FF d a b c (word x 13) 12 0xfd987193
  let c := FF c d a b (word x 14) 17 0xa679438e
  let b := FF b c d a (word x 15) 22 0x49b40821
  let a := GG a b c d (word x 1) 5 0xf61e2562
  let d := GG d a b c (word x 6) 9 0xc040b340
  let c := GG c d a b (word x 11) 14 0x265e5a51
  let b := GG b c d a (word x 0) 20 0xe9b6c7aa
  let a := GG a b c d (word x 5) 5 0xd62f105d
  let d := GG d a b c (word x 10) 9 0x02441453
  let c := GG c d a b (word x 15) 14 0xd8a1e681
  let b := GG b c d a (word x 4) 20 0xe7d3fbc8
  let a := GG a b c d (word x 9) 5 0x21e1cde6
  let d := GG d a b c (word x 14) 9 0xc33707d6
  let c := GG c d a b (word x 3) 14 0xf4d50d87
  let b := GG b c d a (word x 8) 20 0x455a14ed
  let a := GG a b c d (word x 13) 5 0xa9e3e905
  let d := GG d a b c (word x 2) 9 0xfcefa3f8
  let c := GG c d a b (word x 7) 14 0x676f02d9
  let b := GG b c d a (word x 12) 20 0x8d2a4c8a
  let a := HH a b c d (word x 5) 4 0xfffa3942
  let d := HH d a b c (word x 8) 11 0x8771f681
  let c := HH c d a b (word x 11) 16 0x6d9d6122
  let b := HH b c d a (word x 14) 23 0xfde5380c
  let a := HH a b c d (word x 1) 4 0xa4beea44
  let d := HH d a b c (word x 4) 11 0x4bdecfa9
  let c := HH c d a b (word x 7) 16 0xf6bb4b60
  let b := HH b c d a (word x 10) 23 0xbebfbc70
  let a := HH a b c d (word x 13) 4 0x289b7ec6
  let d := HH d a b c (word x 0) 11 0xeaa127fa
  let c := HH c d a b (word x 3) 16 0xd4ef3085
  let b := HH b c d a (word x 6) 23 0x04881d05
  let a := HH a b c d (word x 9) 4 0xd9d4d039
  let d := HH d a b c (word x 12) 11 0xe6db99e5
  let c := HH c d a b (word x 15) 16 0x1fa27cf8
  let b := HH b c d a (word x 2) 23 0xc4ac5665
  let a := II a b c d (word x 0) 6 0xf4292244
  let d := II d a b c (word x 7) 10 0x432aff97
  let c := II c d a b (word x 14) 15 0xab9423a7
  let b := II b c d a (word x 5) 21 0xfc93a039
  let a := II a b c d (word x 12) 6 0x655b59c3
  let d := II d a b c (word x 3) 10 0x8f0ccc92
  let c := II c d a b (word x 10) 15 0xffeff47d
  let b := II b c d a (word x 1) 21 0x85845dd1
  let a := II a b c d (word x 8) 6 0x6fa87e4f
  let d := II d a b c (word x 15) 10 0xfe2ce6e0
  let c := II c d a b (word x 6) 15 0xa3014314
  let b := II b c d a (word x 13) 21 0x4e0811a1
  let a := II a b c d (word x 4) 6 0xf7537e82
  let d := II d a b c (word x 11) 10 0xbd3af235
  let c := II c d a b (word x 2) 15 0x2ad7d2bb
  let b := II b c d a (word x 9) 21 0xeb86d391
  pack4 (add32 (word st 0) a) (add32 (word st 1) b) (add32 (word st 2) c) (add32 (word st 3) d)

/-- A counted loop `st := f st i` for `i = start, start + 1, ...`, the state
being evaluated at each turn. -/
def strictLoop (f : Nat → Nat → Nat) : Nat → Nat → Nat → Nat
  | 0, _, st => st
  | n + 1, i, st =>
    match f st i with
    | 0 => strictLoop f n (Nat.succ i) 0
    | v + 1 => strictLoop f n (Nat.succ i) (Nat.succ v)

/-- The initial state. -/
def init : Nat := pack4 0x67452301 0xefcdab89 0x98badcfe 0x10325476

/-- The message with its padding: a `0x80` byte, zero bytes up to 56 modulo
64, and the length in bits as 8 little-endian bytes. -/
def padded (msg : Bytes) : Bytes :=
  let total := Nat.mul (Nat.succ (Nat.div (Nat.add msg.len 8) 64)) 64
  ⟨Nat.add (Nat.add msg.val (Nat.shiftLeft 128 (Nat.mul 8 msg.len)))
    (Nat.shiftLeft (Nat.mod (Nat.mul 8 msg.len) 18446744073709551616)
      (Nat.mul 8 (Nat.sub total 8))),
    total⟩

/-- The MD5 digest of a message, as the little-endian number of its 16 bytes. -/
def sum (msg : Bytes) : Nat :=
  let p := padded msg
  strictLoop (fun st k => transform st (Nat.mod (Nat.shiftRight p.val (Nat.mul 512 k))
    (Nat.pow 2 512))) (Nat.div p.len 64) 0 init

end md5

/-! ## The Basic-Auth dependency -/

namespace auth

open md5

/-- The bytes `mixin[i % 16]` for `i` below the length of the password. -/
def mix (mixin : Nat) : Nat → Nat → Bytes
  | 0, _ => Bytes.empty
  | n + 1, i => Bytes.append ⟨Bytes.get ⟨mixin, 16⟩ (i % 16), 1⟩ (mix mixin n (i + 1))

/-- One byte for each bit of the length of the password: the first byte of
the password where the bit is 0, a zero byte where it is 1. -/
def lenBits (first : Nat) : Nat → Nat → Bytes
  | 0, _ => Bytes.empty
  | fuel + 1, i =>
    if i = 0 then Bytes.empty
    else Bytes.append ⟨if i % 2 = 0 then first else 0, 1⟩ (lenBits first fuel (i / 2))

/-- One of the 1000 rounds that stretch the digest. -/
def round (password salt : Bytes) (final : Nat) (i : Nat) : Nat :=
  md5.sum ((((if i % 2 = 0 then ⟨final, 16⟩ else password).append
    (if i % 3 = 0 then Bytes.empty else salt)).append
    (if i % 7 = 0 then Bytes.empty else password)).append
    (if i % 2 = 0 then password else ⟨final, 16⟩))

/-- The 16 digest bytes of MD5-crypt, as a little-endian number. -/
def cryptDigest (password salt magic : Bytes) : Nat :=
  let mixin := md5.sum ((password.append salt).append password)
  let d := (((password.append magic).append salt).append (mix mixin password.len 0)).append
    (lenBits (password.get 0) (password.len + 1) password.len)
  strictLoop (round password salt) 1000 0 (md5.sum d)

/-- The alphabet of the crypt encoding. -/
def itoa64 : List Char :=
  "./0123456789ABCDEFGHIJKLMNOPQRSTUVWXYZabcdefghijklmnopqrstuvwxyz".data

/-- The order in which the digest bytes are encoded. -/
def swaps : List Nat := [12, 6, 0, 13, 7, 1, 14, 8, 2, 15, 9, 3, 5, 10, 4, 11]

/-- The 22 characters that encode the digest, 6 bits each. -/
def to64 (final : Nat) : List Char :=
  let v := Bytes.ofList (swaps.map (Bytes.get ⟨final, 16⟩))
  (List.range 22).map (fun k => itoa64.getD (v.val / 64 ^ k % 64) '.')

/-- Modelled from the spec: the legacy salted MD5-crypt scheme
(`$1$<salt>$<digest>`) of the credential verifier, which lives in the
Basic-Auth dependency and not in the sources; it is reproduced bit for bit. -/
def MD5Crypt (password salt magic : String) : String :=
  magic ++ salt ++ "$" ++ String.mk (to64 (cryptDigest (Bytes.ofString password)
    (Bytes.ofString salt) (Bytes.ofString magic)))

/-- The call `strings.SplitN(s, sep, n)` for a one-character separator. -/
def splitN (sep : Char) : Nat → List Char → List (List Char)
  | 0, _ => []
  | 1, cs => [cs]
  | n + 2, cs =>
    match cs.span (fun c => c != sep) with
    | (before, []) => [before]
    | (before, _ :: rest) => before :: splitN sep (n + 1) rest

/-- The type `auth.BasicAuth`: a realm and a secret provider, which maps a
user name and a realm to the stored entry, or to the empty string. -/
structure BasicAuth where
  Realm : String
  Secrets : String → String → String

/-- The constructor `auth.NewBasicAuthenticator`. -/
def NewBasicAuthenticator (realm : String) (secrets : String → String → String) : BasicAuth :=
  ⟨realm, secrets⟩

/-- Modelled from the spec: `verify(username, suppliedSecret)` of the
CredentialVerifier (4.2). The entry of the user is looked up; a user without
an entry, or an entry that is not of the form `$<id>$<salt>$<digest>`, yields
false; otherwise the hash of the supplied secret under the salt of the entry
is compared with the entry. -/
def BasicAuth.verify (a : BasicAuth) (username suppliedSecret : String) : Bool :=
  let passwd := a.Secrets username a.Realm
  match splitN '$' 4 passwd.data with
  | [_, id, salt, _] =>
    MD5Crypt suppliedSecret (String.mk salt) ("$" ++ String.mk id ++ "$") == passwd
  | _ => false

/-- Modelled from the spec: the Basic-Auth check against the `Authorization`
header. It returns the user name when the header is valid and the empty
string when there is no header or verification fails. -/
def BasicAuth.CheckAuth (a : BasicAuth) (request : Request) : String :=
  match request.Authorization with
  | none => ""
  | some (user, secret) => if a.verify user secret then user else ""

/-- Modelled from the spec: the challenge, status 401 with the header
`WWW-Authenticate: Basic realm="<realm>"`. -/
def BasicAuth.RequireAuth (a : BasicAuth) (writer : ResponseWriter) (_request : Request) :
    ResponseWriter :=
  ((writer.SetHeader "WWW-Authenticate" ("Basic realm=\x22" ++ a.Realm ++ "\x22")).WriteHeader
    401).Write "401 Unauthorized\n"

end auth

/-! ## Package `authenticator` -/

namespace authenticator

/-- Modelled from the test's use: the interface `Authenticator` as the access
control consumes it. -/
structure Authenticator where
  IsAuthenticated : Request → Bool

/-- Modelled from the test's use: the authenticator of an anonymous caller. -/
def NewNeverAuthenticated : Authenticator := ⟨fun _ => false⟩

/-- Modelled from the test's use: the authenticator that accepts everyone. -/
def NewAlwaysAuthenticated : Authenticator := ⟨fun _ => true⟩

/-- The realm of the Basic-Auth challenge. -/
def authenticationRealmName : String := "gone wiki"

/-- The session store `cookieAuthenticationStore` is declared outside the
sources and is taken as a parameter: `userId` recovers the identity from
the request, `setUserId` persists it on the response. -/
structure cookieAuthenticationStore where
  userId : Request → String × Bool
  setUserId : ResponseWriter → Request → String → ResponseWriter

/-- Modelled from the spec: the SessionStore (4.5) that reads and writes a
single cookie carrying the user id; a missing or malformed cookie is "not
found". -/
def newCookieAuthenticationStore : cookieAuthenticationStore where
  userId := fun request =>
    match request.Cookie with
    | some userId => (userId, true)
    | none => ("", false)
  setUserId := fun writer _ userId => writer.SetHeader "Set-Cookie" userId

/-- The secret provider of the sample user. -/
def provideSampleSecret (user _realm : String) : String :=
  if user = "test" then
    -- password is "hello"
    "$1$dlPL2MqE$oQmn16q49SqdmhenQuNgs1"
  else ""

/-- The type `HttpBasicAuthenticator`. -/
structure HttpBasicAuthenticator where
  authenticationHandler : auth.BasicAuth
  authenticationStore : cookieAuthenticationStore

/-- The constructor `NewHttpBasicAuthenticator`. -/
def NewHttpBasicAuthenticator : HttpBasicAuthenticator :=
  ⟨auth.NewBasicAuthenticator authenticationRealmName provideSampleSecret,
    newCookieAuthenticationStore⟩

/-- The method `setUserId`: load the context, set the user id, save. -/
def HttpBasicAuthenticator.setUserId (_a : HttpBasicAuthenticator) (request : Request)
    (userId : String) : Request :=
  let ctx := context.Load request
  context.Context.Save { ctx with UserId := userId } request

/-- The method `IsAuthenticated`. -/
def HttpBasicAuthenticator.IsAuthenticated (_a : HttpBasicAuthenticator) (request : Request) :
    Bool :=
  (context.Load request).IsAuthenticated

/-- The method `UserId`. -/
def HttpBasicAuthenticator.UserId (_a : HttpBasicAuthenticator) (request : Request) : String :=
  (context.Load request).UserId

/-- The method `checkAuth`. -/
def HttpBasicAuthenticator.checkAuth (a : HttpBasicAuthenticator) (request : Request) : Request :=
  a.setUserId request (a.authenticationHandler.CheckAuth request)

/-- AuthHandler wraps a handler and reads authentication information from
the session associated with the request prior to calling the delegate. -/
def HttpBasicAuthenticator.AuthHandler (a : HttpBasicAuthenticator) (delegate : HandlerFunc) :
    HandlerFunc :=
  fun writer request =>
    match a.authenticationStore.userId request with
    | (userId, true) => delegate writer (a.setUserId request userId)
    | (_, false) => delegate writer request

/-- ServeHTTP serves an authentication UI. The function
`router.RedirectToViewMode` is declared outside the sources and is taken as
a parameter. -/
def HttpBasicAuthenticator.ServeHTTP (a : HttpBasicAuthenticator)
    (RedirectToViewMode : ResponseWriter → Request → ResponseWriter)
    (writer : ResponseWriter) (request : Request) : ResponseWriter × Request :=
  let request1 := a.checkAuth request
  if a.IsAuthenticated request1 then
    let writer1 := a.authenticationStore.setUserId writer request1 (a.UserId request1)
    (RedirectToViewMode writer1 request1, request1)
  else
    (a.authenticationHandler.RequireAuth writer request1, request1)

/-- An `HttpBasicAuthenticator` as the `Authenticator` of the access control. -/
def HttpBasicAuthenticator.toAuthenticator (a : HttpBasicAuthenticator) : Authenticator :=
  ⟨a.IsAuthenticated⟩

end authenticator

/-! ## The file system -/

/-- Classes of errors returned by the operating system. -/
inductive OsError where
  | notExist
  | invalid
  | isDirectory
  | notDirectory
deriving DecidableEq, Repr

/-- Error values stored in a `Filer`. The first three are the kinds of the
spec (section 7); `Os` wraps an error returned by a file-system call. -/
inductive Error where
  | PathNotFound
  | AccessDenied
  | PathEscapesRoot
  | Os (e : OsError)
deriving DecidableEq, Repr

/-- A file or directory: permission bits, kind and content. -/
structure Node where
  mode : Nat
  isDir : Bool
  content : String
deriving DecidableEq, Repr

/-- A Go `*os.File`: the nil pointer, or a descriptor on a path. -/
inductive File where
  | nilPtr
  | fd (path : String)
deriving DecidableEq, Repr

/-- Descriptor-level calls on the file system. -/
inductive Call where
  | Open (p : String)
  | Create (p : String)
  | ReadAll (file : File)
  | WriteString (file : File) (content : String)
  | Close (file : File)
deriving DecidableEq, Repr

/-- The world a `Filer` runs in: the file tree, the umask of the process, the
system table of `mime.TypeByExtension` and the calls issued so far. The
server process itself is not restricted by the permission bits: they are
what the access check consults. -/
structure World where
  files : String → Option Node
  umask : Nat
  mimeTypes : String → String
  calls : List Call

/-- Record a call. -/
def World.record (w : World) (c : Call) : World :=
  { w with calls := w.calls ++ [c] }

/-- Replace the node at a path. -/
def World.put (w : World) (p : String) (n : Node) : World :=
  { w with files := fun q => if q = p then some n else w.files q }

/-- The directory part of a cleaned absolute path (`path.Dir`). -/
def pathDir (p : String) : String :=
  let d := ((p.data.reverse.dropWhile (fun c => c != '/')).drop 1).reverse
  if d.isEmpty then "/" else String.mk d

/-- The helper of `pathExt`: scan from the end of the path. -/
def extFromEnd : List Char → List Char → List Char
  | [], _ => []
  | c :: cs, acc =>
    if c = '/' then [] else if c = '.' then '.' :: acc else extFromEnd cs (c :: acc)

/-- The extension of a path (`path.Ext`): the suffix beginning at the final dot
of the final slash-separated element, empty when there is no dot. -/
def pathExt (p : String) : String := String.mk (extFromEnd p.data.reverse [])

namespace os

/-- The call `os.Stat`: the node at the path, or a not-exist error. -/
def Stat (w : World) (p : String) : Except OsError Node :=
  match w.files p with
  | some n => .ok n
  | none => .error .notExist

/-- The call `os.Open`: a read descriptor on an existing path. -/
def Open (w : World) (p : String) : File × Option Error × World :=
  match w.files p with
  | some _ => (.fd p, none, w.record (.Open p))
  | none => (.nilPtr, some (.Os .notExist), w.record (.Open p))

/-- The call `os.Create`: create the file with mode `0666` before umask, or
truncate it when it exists. The containing directory must exist. -/
def Create (w : World) (p : String) : File × Option Error × World :=
  match w.files (pathDir p) with
  | none => (.nilPtr, some (.Os .notExist), w.record (.Create p))
  | some d =>
    if d.isDir then
      match w.files p with
      | none =>
        (.fd p, none,
          (w.put p ⟨0o666 - (0o666 &&& w.umask), false, ""⟩).record (.Create p))
      | some n =>
        if n.isDir then (.nilPtr, some (.Os .isDirectory), w.record (.Create p))
        else (.fd p, none, (w.put p { n with content := "" }).record (.Create p))
    else (.nilPtr, some (.Os .notDirectory), w.record (.Create p))

/-- Reading a descriptor to the end (`ioutil.ReadAll` on a `*os.File`). -/
def ReadAll (w : World) (file : File) : String × Option Error × World :=
  match file with
  | .nilPtr => ("", some (.Os .invalid), w.record (.ReadAll file))
  | .fd p =>
    match w.files p with
    | none => ("", some (.Os .invalid), w.record (.ReadAll file))
    | some n =>
      if n.isDir then ("", some (.Os .isDirectory), w.record (.ReadAll file))
      else (n.content, none, w.record (.ReadAll file))

/-- Writing a string through a descriptor (`io.WriteString` on a `*os.File`):
the bytes go to the end of what the file holds. -/
def WriteString (w : World) (file : File) (content : String) : Option Error × World :=
  match file with
  | .nilPtr => (some (.Os .invalid), w.record (.WriteString file content))
  | .fd p =>
    match w.files p with
    | none => (some (.Os .invalid), w.record (.WriteString file content))
    | some n =>
      if n.isDir then (some (.Os .isDirectory), w.record (.WriteString file content))
      else (none, (w.put p { n with content := n.content ++ content }).record
        (.WriteString file content))

/-- Closing a descriptor; the returned error is dropped by every caller. -/
def Close (w : World) (file : File) : World := w.record (.Close file)

end os

/-! ## Package `filer` -/

namespace filer

open authenticator

/-- Maps incoming HTTP requests to the file system. The embedded
`accessControl` is declared outside the sources: its authenticator, the
sticky error `err`, and the resolver behind `pathFromRequest`, which is
taken as the parameter `resolve`. -/
structure Filer where
  authenticator : Authenticator
  err : Option Error
  resolve : Request → Except Error String

/-- Modelled from the spec: `IsAccessDeniedError` is declared outside the
sources; it recognises the kind `AccessDenied`. -/
def IsAccessDeniedError : Error → Bool
  | .AccessDenied => true
  | _ => false

/-- Modelled from the spec: `IsPathNotFoundError` is declared outside the
sources; it recognises the kind `PathNotFound` (stat failure, resource
absent), a not-exist error of the file system included. -/
def IsPathNotFoundError : Error → Bool
  | .PathNotFound => true
  | .Os .notExist => true
  | _ => false

/-- Modelled from the spec: the error model accumulates the first error that
occurred; `setErr` is declared outside the sources. -/
def Filer.setErr (f : Filer) (err : Option Error) : Filer :=
  match f.err with
  | some _ => f
  | none => { f with err := err }

/-- Modelled from the spec: `Err()` exposes the originating error. -/
def Filer.Err (f : Filer) : Option Error := f.err

/-- Initializes a zeroed instance ready to use. -/
def New (authenticator : Authenticator) (resolve : Request → Except Error String) : Filer :=
  ⟨authenticator, none, resolve⟩

/-- Modelled from the spec: `pathFromRequest` is declared outside the
sources; it yields the resolved path or records the resolver's error. -/
def Filer.pathFromRequest (f : Filer) (request : Request) : String × Filer :=
  match f.resolve request with
  | .ok p => (p, f)
  | .error e => ("", f.setErr (some e))

/-- The world/other read bit of a permission mode. -/
def worldRead (mode : Nat) : Bool := mode &&& 0o004 != 0

/-- The world/other write bit of a permission mode. -/
def worldWrite (mode : Nat) : Bool := mode &&& 0o002 != 0

/-- Modelled from the spec: `checkRead(ctx, resolvedPath)` of the
permission check (4.3). An authenticated caller is granted access; otherwise the
target is statted: not-exist is `PathNotFound`, any other failure or an unset
world read bit is `AccessDenied`. -/
def checkRead (w : World) (authenticated : Bool) (resolvedPath : String) : Option Error :=
  if authenticated then none
  else
    match os.Stat w resolvedPath with
    | .error .notExist => some .PathNotFound
    | .error _ => some .AccessDenied
    | .ok n => if worldRead n.mode then none else some .AccessDenied

/-- Modelled from the spec: `checkWrite(ctx, resolvedPath)` of the
permission check (4.3). An authenticated caller is granted access; otherwise the
world write bit must be set on the containing directory and, if the file
already exists, on the file itself; a target that does not exist is not an
error; any other stat failure or a failing bit check is `AccessDenied`. -/
def checkWrite (w : World) (authenticated : Bool) (resolvedPath : String) : Option Error :=
  if authenticated then none
  else
    match os.Stat w (pathDir resolvedPath) with
    | .error _ => some .AccessDenied
    | .ok d =>
      if worldWrite d.mode then
        match os.Stat w resolvedPath with
        | .error .notExist => none
        | .error _ => some .AccessDenied
        | .ok n => if worldWrite n.mode then none else some .AccessDenied
      else some .AccessDenied

/-- Modelled from the spec: `assertHasReadAccessForRequest` is declared
outside the sources. It records the error of `checkRead` for the request. -/
def Filer.assertHasReadAccessForRequest (f : Filer) (w : World) (request : Request) : Filer :=
  if f.err.isSome then f
  else if f.authenticator.IsAuthenticated request then f
  else
    match f.pathFromRequest request with
    | (p, f1) => if f1.err.isSome then f1 else f1.setErr (checkRead w false p)

/-- Modelled from the spec: `assertHasWriteAccessForRequest` is declared
outside the sources. It records the error of `checkWrite` for the request. -/
def Filer.assertHasWriteAccessForRequest (f : Filer) (w : World) (request : Request) : Filer :=
  if f.err.isSome then f
  else if f.authenticator.IsAuthenticated request then f
  else
    match f.pathFromRequest request with
    | (p, f1) => if f1.err.isSome then f1 else f1.setErr (checkWrite w false p)

/-- Reads everything from the given reader until EOF and closes it. -/
def Filer.readAllAndClose (f : Filer) (w : World) (readCloser : Option File) :
    Option (String × Filer × World) :=
  if f.err.isSome then some ("", f, w)
  else
    match readCloser with
    | none => none
    | some file =>
      match os.ReadAll w file with
      | (buf, err, w1) => some (buf, f.setErr err, os.Close w1 file)

/-- Writes the given string into the given writer and closes it. -/
def Filer.writeAllAndClose (f : Filer) (w : World) (writeCloser : Option File)
    (content : String) : Option (Filer × World) :=
  if f.err.isSome then some (f, w)
  else
    match writeCloser with
    | none => none
    | some file =>
      match os.WriteString w file content with
      | (err, w1) => some (f.setErr err, os.Close w1 file)

/-- The method `openReaderAtPath`. -/
def Filer.openReaderAtPath (f : Filer) (w : World) (p : String) :
    Option File × Filer × World :=
  if f.err.isSome then (none, f, w)
  else
    match os.Open w p with
    | (reader, err, w1) => (some reader, f.setErr err, w1)

/-- The method `openWriterAtPath`. -/
def Filer.openWriterAtPath (f : Filer) (w : World) (p : String) :
    Option File × Filer × World :=
  if f.err.isSome then (none, f, w)
  else
    match os.Create w p with
    | (writer, err, w1) => (some writer, f.setErr err, w1)

/-- OpenReader opens a reader for the given request. -/
def Filer.OpenReader (f : Filer) (w : World) (request : Request) :
    Option File × Filer × World :=
  let f1 := f.assertHasReadAccessForRequest w request
  if f1.err.isSome then (none, f1, w)
  else
    match f1.pathFromRequest request with
    | (p, f2) => f2.openReaderAtPath w p

/-- OpenWriter opens a writer for the given request. -/
def Filer.OpenWriter (f : Filer) (w : World) (request : Request) :
    Option File × Filer × World :=
  let f1 := f.assertHasWriteAccessForRequest w request
  if f1.err.isSome then (none, f1, w)
  else
    match f1.pathFromRequest request with
    | (p, f2) => f2.openWriterAtPath w p

/-- Returns the requested content as string. -/
def Filer.ReadString (f : Filer) (w : World) (request : Request) :
    Option (String × Filer × World) :=
  if f.err.isSome then some ("", f, w)
  else
    match f.OpenReader w request with
    | (reader, f1, w1) => f1.readAllAndClose w1 reader

/-- Writes the given content into a file pointed to by the request. -/
def Filer.WriteString (f : Filer) (w : World) (request : Request) (content : String) :
    Option (Filer × World) :=
  if f.err.isSome then some (f, w)
  else
    match f.OpenWriter w request with
    | (writer, f1, w1) => f1.writeAllAndClose w1 writer content

/-- The method `mimeTypeForPath`. -/
def Filer.mimeTypeForPath (f : Filer) (w : World) (p : String) : String :=
  if f.err.isSome then ""
  else w.mimeTypes (pathExt p)

/-- The method `MimeTypeForRequest`. -/
def Filer.MimeTypeForRequest (f : Filer) (w : World) (request : Request) : String × Filer :=
  if f.err.isSome then ("", f)
  else
    match f.pathFromRequest request with
    | (p, f1) => (f1.mimeTypeForPath w p, f1)

end filer

/-! ## Package `templates` -/

namespace templates

/-- The name of the editor template among the resources. -/
def editorTemplateName : String := "/editor.html"

/-- The type `Template` is declared outside the sources: its error, and the
rendering of the loaded HTML template, which is taken as the parameter
`render`. -/
structure Template where
  err : Option String
  render : List (String × String) → Except String String

/-- The error of the template. -/
def Template.Err (t : Template) : Option String := t.err

/-- The method `Execute`: write the rendered data, or keep the error. -/
def Template.Execute (t : Template) (writer : ResponseWriter) (data : List (String × String)) :
    Template × ResponseWriter :=
  match t.render data with
  | .ok html => (t, writer.Write html)
  | .error e => ({ t with err := some e }, writer)

/-- Always check the Err() result! -/
structure EditorTemplate where
  Template : Template

/-- The function `LoadEditorTemplate`; `loadHtmlTemplate` is declared
outside the sources and is taken as a parameter. -/
def LoadEditorTemplate (loadHtmlTemplate : String → Template) : EditorTemplate :=
  ⟨loadHtmlTemplate editorTemplateName⟩

/-- The method `Render`. -/
def EditorTemplate.Render (t : EditorTemplate) (writer : ResponseWriter) (url : String)
    (content : String) : EditorTemplate × ResponseWriter :=
  if t.Template.Err.isSome then (t, writer)
  else
    let data := [("path", url), ("content", content)]
    match t.Template.Execute writer data with
    | (t1, writer1) => (⟨t1⟩, writer1)

end templates

/-! ## Package `editor` -/

namespace editor

open filer templates

/-- Serves the editor UI. -/
structure Handler where
  filer : Filer
  template : EditorTemplate

/-- Initializes a zeroed instance ready to use. The arguments stand for what
the constructors of the filer and of the template read from their
environment. -/
def New (authenticator : authenticator.Authenticator) (resolve : Request → Except Error String)
    (loadHtmlTemplate : String → Template) : Except String Handler :=
  let template := LoadEditorTemplate loadHtmlTemplate
  match template.Template.Err with
  | some e => .error e
  | none => .ok ⟨filer.New authenticator resolve, template⟩

/-- The method `serveNonGET`. -/
def Handler.serveNonGET (_h : Handler) (writer : ResponseWriter) (_request : Request) :
    ResponseWriter :=
  (writer.WriteHeader 405).Write "Oops, method not allowed"

/-- The method `serveNotFound`. -/
def Handler.serveNotFound (_h : Handler) (writer : ResponseWriter) (_request : Request) :
    ResponseWriter :=
  (writer.WriteHeader 404).Write "Oops, file not found"

/-- The method `serveInternalServerError`. -/
def Handler.serveInternalServerError (_h : Handler) (writer : ResponseWriter)
    (_request : Request) : ResponseWriter :=
  (writer.WriteHeader 500).Write "Oops, internal server error"

/-- The method `serveGET`. -/
def Handler.serveGET (h : Handler) (w : World) (writer : ResponseWriter) (request : Request) :
    Option (ResponseWriter × Handler × World) :=
  match h.filer.ReadString w request with
  | none => none
  | some (content, f1, w1) =>
    let h1 : Handler := { h with filer := f1 }
    match h1.filer.Err with
    | some e =>
      if IsPathNotFoundError e then some (h1.serveNotFound writer request, h1, w1)
      else some (h1.serveInternalServerError writer request, h1, w1)
    | none =>
      match h1.template.Render writer request.URL content with
      | (t1, writer1) =>
        let h2 : Handler := { h1 with template := t1 }
        if h2.template.Template.Err.isSome then
          some (h2.serveInternalServerError writer1 request, h2, w1)
        else some (writer1, h2, w1)

/-- The method `ServeHTTP`. -/
def Handler.ServeHTTP (h : Handler) (w : World) (writer : ResponseWriter) (request : Request) :
    Option (ResponseWriter × Handler × World) :=
  if request.Method != "GET" then some (h.serveNonGET writer request, h, w)
  else h.serveGET w writer request

end editor


/-! ## Concrete inputs

The set-up of the repository tests: a content root with a file of mode
`0770`, a world-readable file and a directory of mode `0772`. -/

namespace sample

/-- The request of the tests: `GET` on a path, no credentials, no cookie. -/
def requestGET (path : String) : Request := ⟨"GET", path, none, none, ⟨""⟩⟩

/-- A resolver that joins the request path under the content root `/srv`. -/
def resolve (request : Request) : Except Error String := .ok ("/srv" ++ request.URL)

/-- The file tree. -/
def files (p : String) : Option Node :=
  if p = "/srv" then some ⟨0o755, true, ""⟩
  else if p = "/srv/private" then some ⟨0o770, false, "secret"⟩
  else if p = "/srv/public" then some ⟨0o644, false, "hello"⟩
  else if p = "/srv/drop" then some ⟨0o772, true, ""⟩
  else none

/-- The world of the tests, before any call. -/
def world : World := ⟨files, 0o022, fun _ => "", []⟩

/-- The filer of an anonymous caller. -/
def anonymous : filer.Filer := filer.New authenticator.NewNeverAuthenticated resolve

/-- The filer of an authenticated caller. -/
def authenticated : filer.Filer := filer.New authenticator.NewAlwaysAuthenticated resolve

/-- A filer on which an access check has failed before. -/
def failed : filer.Filer := { anonymous with err := some .AccessDenied }

/-- A template that renders the content as it is. -/
def template : templates.Template :=
  ⟨none, fun data => .ok ((data.lookup "content").getD "")⟩

/-- The editor of an anonymous caller. -/
def editor : editor.Handler := ⟨anonymous, ⟨template⟩⟩

/-- A request that carries the session cookie of `alice` and no
`Authorization` header. -/
def cookieRequest : Request := ⟨"GET", "/login", none, some "alice", ⟨""⟩⟩

/-- A redirect to the view route. -/
def redirect (writer : ResponseWriter) (request : Request) : ResponseWriter :=
  (writer.SetHeader "Location" request.URL).WriteHeader 302

end sample

/-! ## Theorems about package `filer` -/

section FilerTheorems

open filer

/-- Recording no error on a filer without error leaves it as it is. -/
theorem setErr_none (f : Filer) (herr : f.err = none) : f.setErr none = f := by
  cases f
  simp_all [Filer.setErr]

/-- Recording an error on a filer without error stores it. -/
theorem setErr_some (f : Filer) (e : Error) (herr : f.err = none) :
    f.setErr (some e) = { f with err := some e } := by
  simp [Filer.setErr, herr]

/-- Resolving the path of a request that the resolver accepts. -/
theorem pathFromRequest_ok (f : Filer) (request : Request) (p : String)
    (hp : f.resolve request = .ok p) : f.pathFromRequest request = (p, f) := by
  simp [Filer.pathFromRequest, hp]

/-- The access check for reading of an anonymous caller on an existing
target whose resolved path is `p`. -/
theorem assertRead_anonymous (f : Filer) (w : World) (request : Request) (p : String) (n : Node)
    (herr : f.err = none) (hauth : f.authenticator.IsAuthenticated request = false)
    (hp : f.resolve request = .ok p) (hn : w.files p = some n) :
    f.assertHasReadAccessForRequest w request
      = if worldRead n.mode then f else { f with err := some .AccessDenied } := by
  cases hb : worldRead n.mode <;>
    simp [Filer.assertHasReadAccessForRequest, pathFromRequest_ok f request p hp, checkRead,
      os.Stat, herr, hauth, hn, hb, setErr_none f herr, setErr_some f _ herr]

/-- What `OpenReader` does for an anonymous caller on an existing target. -/
theorem OpenReader_anonymous (f : Filer) (w : World) (request : Request) (p : String) (n : Node)
    (herr : f.err = none) (hauth : f.authenticator.IsAuthenticated request = false)
    (hp : f.resolve request = .ok p) (hn : w.files p = some n) :
    f.OpenReader w request
      = if worldRead n.mode then (some (.fd p), f, w.record (.Open p))
        else (none, { f with err := some .AccessDenied }, w) := by
  cases hb : worldRead n.mode <;>
    simp [Filer.OpenReader, assertRead_anonymous f w request p n herr hauth hp hn, hb,
      pathFromRequest_ok f request p hp, Filer.openReaderAtPath, os.Open, herr, hn,
      setErr_none f herr]

/-- C1. For an unauthenticated request on an existing file, `OpenReader`
grants access iff the world read bit of the file is set. When the bit is
unset it returns the nil reader, leaves the world as it is (no file is
opened) and `Err()` is an error for which `IsAccessDeniedError` holds. When
the bit is set the access check records no error and the reader is opened
on the file. The outcome does not depend on the content of the file. -/
theorem C1_openReader_world_read_bit (f : Filer) (w : World) (request : Request) (p : String)
    (n : Node) (herr : f.Err = none)
    (hauth : f.authenticator.IsAuthenticated request = false)
    (hp : f.resolve request = .ok p) (hn : w.files p = some n) :
    ((f.OpenReader w request).2.1.Err = none ↔ worldRead n.mode = true)
    ∧ (worldRead n.mode = false →
        f.OpenReader w request = (none, { f with err := some .AccessDenied }, w)
        ∧ ∃ e, (f.OpenReader w request).2.1.Err = some e ∧ IsAccessDeniedError e = true)
    ∧ (worldRead n.mode = true →
        (f.assertHasReadAccessForRequest w request).Err = none
        ∧ f.OpenReader w request = (some (.fd p), f, w.record (.Open p)))
    ∧ ∀ content : String,
        (f.OpenReader (w.put p { n with content := content }) request).2.1.Err
          = (f.OpenReader w request).2.1.Err := by
  have h0 : f.err = none := herr
  have hO := OpenReader_anonymous f w request p n h0 hauth hp hn
  have hA := assertRead_anonymous f w request p n h0 hauth hp hn
  refine ⟨?_, ?_, ?_, ?_⟩
  · cases hb : worldRead n.mode <;> simp [hO, hb, Filer.Err, h0]
  · intro hb
    simp [hO, hb, Filer.Err, IsAccessDeniedError]
  · intro hb
    simp [hO, hA, hb, Filer.Err, h0]
  · intro content
    have hn2 : (w.put p { n with content := content }).files p
        = some { n with content := content } := by
      simp [World.put]
    rw [OpenReader_anonymous f _ request p _ h0 hauth hp hn2, hO]
    cases hb : worldRead n.mode <;> simp [hb, Filer.Err]

/-- C1, at the file of mode `0770` and at the world-readable file of the
tests. -/
theorem C1_openReader_world_read_bit_witness :
    (sample.anonymous.Err = none
      ∧ sample.anonymous.authenticator.IsAuthenticated (sample.requestGET "/private") = false
      ∧ sample.anonymous.resolve (sample.requestGET "/private") = .ok "/srv/private"
      ∧ sample.world.files "/srv/private" = some ⟨0o770, false, "secret"⟩)
    ∧ (sample.anonymous.OpenReader sample.world (sample.requestGET "/private")).1 = none
    ∧ (sample.anonymous.OpenReader sample.world (sample.requestGET "/private")).2.1.Err
        = some .AccessDenied :=
  have h := C1_openReader_world_read_bit sample.anonymous sample.world
    (sample.requestGET "/private") "/srv/private" ⟨0o770, false, "secret"⟩ rfl rfl rfl
    (by decide)
  ⟨⟨rfl, rfl, rfl, by decide⟩, by rw [(h.2.1 (by decide)).1], by rw [(h.2.1 (by decide)).1]; rfl⟩

/-- C2. Override property: for a request that the authenticator reports as
authenticated, the access checks of `OpenReader` and of `OpenWriter` record
no error, whatever the world (every permission mode of the target, modes
without world bits included): both leave the filer as it is and hand over
to `openReaderAtPath` / `openWriterAtPath`; on an existing target of any
mode the reader is opened. -/
theorem C2_authenticated_override (f : Filer) (w : World) (request : Request)
    (herr : f.Err = none) (hauth : f.authenticator.IsAuthenticated request = true) :
    (f.assertHasReadAccessForRequest w request).Err = none
    ∧ (f.assertHasWriteAccessForRequest w request).Err = none
    ∧ f.OpenReader w request = (f.pathFromRequest request).2.openReaderAtPath w
        (f.pathFromRequest request).1
    ∧ f.OpenWriter w request = (f.pathFromRequest request).2.openWriterAtPath w
        (f.pathFromRequest request).1
    ∧ (∀ p, checkRead w true p = none ∧ checkWrite w true p = none)
    ∧ ∀ p n, f.resolve request = .ok p → w.files p = some n →
        f.OpenReader w request = (some (.fd p), f, w.record (.Open p)) := by
  have h0 : f.err = none := herr
  have hr : f.assertHasReadAccessForRequest w request = f := by
    simp [Filer.assertHasReadAccessForRequest, h0, hauth]
  have hw : f.assertHasWriteAccessForRequest w request = f := by
    simp [Filer.assertHasWriteAccessForRequest, h0, hauth]
  refine ⟨by rw [hr]; exact herr, by rw [hw]; exact herr, ?_, ?_, ?_, ?_⟩
  · simp [Filer.OpenReader, hr, h0]
  · simp [Filer.OpenWriter, hw, h0]
  · intro p
    simp [checkRead, checkWrite]
  · intro p n hp hn
    simp [Filer.OpenReader, hr, h0, pathFromRequest_ok f request p hp, Filer.openReaderAtPath,
      os.Open, hn, setErr_none f h0]

/-- C2, at the file of mode `0770` of the tests. -/
theorem C2_authenticated_override_witness :
    (sample.authenticated.Err = none
      ∧ sample.authenticated.authenticator.IsAuthenticated (sample.requestGET "/private") = true)
    ∧ (sample.authenticated.assertHasReadAccessForRequest sample.world
        (sample.requestGET "/private")).Err = none
    ∧ (sample.authenticated.assertHasWriteAccessForRequest sample.world
        (sample.requestGET "/private")).Err = none
    ∧ sample.authenticated.OpenReader sample.world (sample.requestGET "/private")
        = (some (.fd "/srv/private"), sample.authenticated,
            sample.world.record (.Open "/srv/private")) :=
  have h := C2_authenticated_override sample.authenticated sample.world
    (sample.requestGET "/private") rfl rfl
  ⟨⟨rfl, rfl⟩, h.1, h.2.1, h.2.2.2.2.2 "/srv/private" ⟨0o770, false, "secret"⟩ rfl (by decide)⟩

/-- The access check for writing of an anonymous caller whose resolved path
is `p`. -/
theorem assertWrite_anonymous (f : Filer) (w : World) (request : Request) (p : String)
    (herr : f.err = none) (hauth : f.authenticator.IsAuthenticated request = false)
    (hp : f.resolve request = .ok p) :
    f.assertHasWriteAccessForRequest w request = f.setErr (checkWrite w false p) := by
  simp [Filer.assertHasWriteAccessForRequest, pathFromRequest_ok f request p hp, herr, hauth]

/-- C3. For an unauthenticated request on an existing file that lacks the
world write bit, `OpenWriter` returns the nil writer, leaves the world as it
is (the file is neither created nor truncated) and `Err()` is an error for
which `IsAccessDeniedError` holds. -/
theorem C3_openWriter_denied (f : Filer) (w : World) (request : Request) (p : String) (n : Node)
    (herr : f.Err = none) (hauth : f.authenticator.IsAuthenticated request = false)
    (hp : f.resolve request = .ok p) (hn : w.files p = some n)
    (hbit : worldWrite n.mode = false) :
    f.OpenWriter w request = (none, { f with err := some .AccessDenied }, w)
    ∧ (f.OpenWriter w request).1 = none
    ∧ (f.OpenWriter w request).2.2 = w
    ∧ ∃ e, (f.OpenWriter w request).2.1.Err = some e ∧ IsAccessDeniedError e = true := by
  have h0 : f.err = none := herr
  have hc : checkWrite w false p = some .AccessDenied := by
    simp only [checkWrite, os.Stat, hn]
    cases hd : w.files (pathDir p) with
    | none => simp
    | some d => cases hw : worldWrite d.mode <;> simp [hw, hbit]
  have hO : f.OpenWriter w request = (none, { f with err := some .AccessDenied }, w) := by
    simp [Filer.OpenWriter, assertWrite_anonymous f w request p h0 hauth hp, hc,
      setErr_some f _ h0]
  refine ⟨hO, ?_, ?_, ?_⟩ <;> simp [hO, Filer.Err, IsAccessDeniedError]

/-- C3, at the file of mode `0770` of the tests. -/
theorem C3_openWriter_denied_witness :
    (sample.anonymous.Err = none
      ∧ sample.anonymous.authenticator.IsAuthenticated (sample.requestGET "/private") = false
      ∧ sample.anonymous.resolve (sample.requestGET "/private") = .ok "/srv/private"
      ∧ sample.world.files "/srv/private" = some ⟨0o770, false, "secret"⟩
      ∧ worldWrite 0o770 = false)
    ∧ sample.anonymous.OpenWriter sample.world (sample.requestGET "/private")
        = (none, sample.failed, sample.world) :=
  ⟨⟨rfl, rfl, rfl, by decide, by decide⟩,
    (C3_openWriter_denied sample.anonymous sample.world (sample.requestGET "/private")
      "/srv/private" ⟨0o770, false, "secret"⟩ rfl rfl rfl (by decide) (by decide)).1⟩

/-- C4. For an unauthenticated request whose target does not exist yet and
whose containing directory has the world write bit set, `OpenWriter` passes
the access check and creates the file: it returns a writer on the path,
`Err()` stays nil, one `os.Create` is issued and the file exists afterwards,
empty. -/
theorem C4_openWriter_creates (f : Filer) (w : World) (request : Request) (p : String)
    (d : Node) (herr : f.Err = none)
    (hauth : f.authenticator.IsAuthenticated request = false)
    (hp : f.resolve request = .ok p) (hn : w.files p = none)
    (hd : w.files (pathDir p) = some d) (hdir : d.isDir = true)
    (hbit : worldWrite d.mode = true) :
    (f.assertHasWriteAccessForRequest w request).Err = none
    ∧ f.OpenWriter w request
        = (some (.fd p), f,
            (w.put p ⟨0o666 - (0o666 &&& w.umask), false, ""⟩).record (.Create p))
    ∧ (f.OpenWriter w request).2.1.Err = none
    ∧ (f.OpenWriter w request).2.2.calls = w.calls ++ [.Create p]
    ∧ (f.OpenWriter w request).2.2.files p
        = some ⟨0o666 - (0o666 &&& w.umask), false, ""⟩ := by
  have h0 : f.err = none := herr
  have hc : checkWrite w false p = none := by
    simp [checkWrite, os.Stat, hn, hd, hbit]
  have hA : f.assertHasWriteAccessForRequest w request = f := by
    rw [assertWrite_anonymous f w request p h0 hauth hp, hc, setErr_none f h0]
  have hO : f.OpenWriter w request
      = (some (.fd p), f,
          (w.put p ⟨0o666 - (0o666 &&& w.umask), false, ""⟩).record (.Create p)) := by
    simp [Filer.OpenWriter, hA, h0, pathFromRequest_ok f request p hp, Filer.openWriterAtPath,
      os.Create, hn, hd, hdir, setErr_none f h0]
  refine ⟨by rw [hA]; exact herr, hO, ?_, ?_, ?_⟩
  · rw [hO]; exact herr
  · rw [hO]; rfl
  · rw [hO]; simp [World.record, World.put]

/-- C4, at a new file in the directory of mode `0772` of the tests. -/
theorem C4_openWriter_creates_witness :
    (sample.anonymous.Err = none
      ∧ sample.anonymous.authenticator.IsAuthenticated (sample.requestGET "/drop/newFile") = false
      ∧ sample.anonymous.resolve (sample.requestGET "/drop/newFile") = .ok "/srv/drop/newFile"
      ∧ sample.world.files "/srv/drop/newFile" = none
      ∧ sample.world.files (pathDir "/srv/drop/newFile") = some ⟨0o772, true, ""⟩
      ∧ worldWrite 0o772 = true)
    ∧ (sample.anonymous.OpenWriter sample.world (sample.requestGET "/drop/newFile")).1
        = some (.fd "/srv/drop/newFile")
    ∧ (sample.anonymous.OpenWriter sample.world (sample.requestGET "/drop/newFile")).2.1.Err
        = none :=
  have h := C4_openWriter_creates sample.anonymous sample.world
    (sample.requestGET "/drop/newFile") "/srv/drop/newFile" ⟨0o772, true, ""⟩ rfl rfl rfl
    (by decide) (by decide) rfl (by decide)
  ⟨⟨rfl, rfl, rfl, by decide, by decide, by decide⟩, by rw [h.2.1], h.2.2.1⟩

/-- A nil reader comes with an error: `openReaderAtPath` returns the nil
interface only when `Err()` is set. -/
theorem openReaderAtPath_nil (f : Filer) (w : World) (p : String)
    (h : (f.openReaderAtPath w p).1 = none) : (f.openReaderAtPath w p).2.1.err.isSome = true := by
  unfold Filer.openReaderAtPath at h ⊢
  by_cases h1 : f.err.isSome = true
  · simp [h1]
  · simp [h1] at h

/-- A nil writer comes with an error: `openWriterAtPath` returns the nil
interface only when `Err()` is set. -/
theorem openWriterAtPath_nil (f : Filer) (w : World) (p : String)
    (h : (f.openWriterAtPath w p).1 = none) : (f.openWriterAtPath w p).2.1.err.isSome = true := by
  unfold Filer.openWriterAtPath at h ⊢
  by_cases h1 : f.err.isSome = true
  · simp [h1]
  · simp [h1] at h

/-- A nil reader comes with an error: `OpenReader` returns the nil interface
only when `Err()` is set. -/
theorem OpenReader_nil (f : Filer) (w : World) (request : Request)
    (h : (f.OpenReader w request).1 = none) : (f.OpenReader w request).2.1.err.isSome = true := by
  unfold Filer.OpenReader at h ⊢
  by_cases h1 : (f.assertHasReadAccessForRequest w request).err.isSome = true
  · simp [h1]
  · simp only [h1] at h ⊢
    exact openReaderAtPath_nil _ w _ h

/-- A nil writer comes with an error: `OpenWriter` returns the nil interface
only when `Err()` is set. -/
theorem OpenWriter_nil (f : Filer) (w : World) (request : Request)
    (h : (f.OpenWriter w request).1 = none) : (f.OpenWriter w request).2.1.err.isSome = true := by
  unfold Filer.OpenWriter at h ⊢
  by_cases h1 : (f.assertHasWriteAccessForRequest w request).err.isSome = true
  · simp [h1]
  · simp only [h1] at h ⊢
    exact openWriterAtPath_nil _ w _ h

/-- The method `ReadString` always returns: it never calls a method of a nil
reader. -/
theorem ReadString_returns (f : Filer) (w : World) (request : Request) :
    (f.ReadString w request).isSome = true := by
  unfold Filer.ReadString
  by_cases h0 : f.err.isSome = true
  · simp [h0]
  · have h := OpenReader_nil f w request
    rcases hO : f.OpenReader w request with ⟨reader, f1, w1⟩
    rw [hO] at h
    simp only [h0]
    unfold Filer.readAllAndClose
    cases reader with
    | none => simp [h rfl]
    | some file => by_cases h1 : f1.err.isSome = true <;> simp [h1]

/-- The method `WriteString` always returns: it never calls a method of a
nil writer. -/
theorem WriteString_returns (f : Filer) (w : World) (request : Request) (content : String) :
    (f.WriteString w request content).isSome = true := by
  unfold Filer.WriteString
  by_cases h0 : f.err.isSome = true
  · simp [h0]
  · have h := OpenWriter_nil f w request
    rcases hO : f.OpenWriter w request with ⟨writer, f1, w1⟩
    rw [hO] at h
    simp only [h0]
    unfold Filer.writeAllAndClose
    cases writer with
    | none => simp [h rfl]
    | some file => by_cases h1 : f1.err.isSome = true <;> simp [h1]

/-- C10. Sticky first error: on a filer whose `Err()` is already set,
`ReadString` returns the empty string, `WriteString` writes nothing,
`openReaderAtPath` and `openWriterAtPath` return nil, `readAllAndClose` and
`writeAllAndClose` read and write nothing, `MimeTypeForRequest` and
`mimeTypeForPath` return the empty string; each of them leaves the filer and
the world as they are, so that `Err()` is still the same error. -/
theorem C10_sticky_first_error (f : Filer) (w : World) (request : Request)
    (p content : String) (readCloser writeCloser : Option File) (e : Error)
    (h : f.Err = some e) :
    f.ReadString w request = some ("", f, w)
    ∧ f.WriteString w request content = some (f, w)
    ∧ f.openReaderAtPath w p = (none, f, w)
    ∧ f.openWriterAtPath w p = (none, f, w)
    ∧ f.readAllAndClose w readCloser = some ("", f, w)
    ∧ f.writeAllAndClose w writeCloser content = some (f, w)
    ∧ f.MimeTypeForRequest w request = ("", f)
    ∧ f.mimeTypeForPath w p = ""
    ∧ (f.OpenReader w request).2.1.Err = some e
    ∧ (f.OpenWriter w request).2.1.Err = some e := by
  have h1 : f.err = some e := h
  simp [Filer.ReadString, Filer.WriteString, Filer.openReaderAtPath, Filer.openWriterAtPath,
    Filer.readAllAndClose, Filer.writeAllAndClose, Filer.MimeTypeForRequest,
    Filer.mimeTypeForPath, Filer.OpenReader, Filer.OpenWriter,
    Filer.assertHasReadAccessForRequest, Filer.assertHasWriteAccessForRequest, Filer.Err, h1]

/-- C10, at a filer that holds an `AccessDenied` error, asked for the
world-readable file of the tests. -/
theorem C10_sticky_first_error_witness :
    sample.failed.Err = some .AccessDenied
    ∧ sample.failed.ReadString sample.world (sample.requestGET "/public")
        = some ("", sample.failed, sample.world)
    ∧ sample.failed.WriteString sample.world (sample.requestGET "/public") "text"
        = some (sample.failed, sample.world) :=
  have h := C10_sticky_first_error sample.failed sample.world (sample.requestGET "/public")
    "/srv/public" "text" (some (.fd "/srv/public")) (some (.fd "/srv/public")) .AccessDenied rfl
  ⟨rfl, h.1, h.2.1⟩

end FilerTheorems

/-! ## Theorems about package `authenticator` -/

section AuthenticatorTheorems

open authenticator

/-- The user id of a request after `setUserId`. -/
theorem UserId_setUserId (a : HttpBasicAuthenticator) (request : Request) (userId : String) :
    a.UserId (a.setUserId request userId) = userId := rfl

/-- A request is authenticated iff its user id is not empty. -/
theorem IsAuthenticated_iff (a : HttpBasicAuthenticator) (request : Request) :
    a.IsAuthenticated request = true ↔ a.UserId request ≠ "" := by
  simp [HttpBasicAuthenticator.IsAuthenticated, HttpBasicAuthenticator.UserId,
    context.Context.IsAuthenticated]

/-- C5. The handler returned by `AuthHandler(delegate)` is one call of the
delegate, on the same writer and on the same request: when the session store
yields `(userId, true)` the request carries `userId` in its context when the
delegate runs, and is authenticated iff `userId` is not empty, its other
fields being untouched; when the store yields `found = false` the delegate
runs on the request as it came. -/
theorem C5_authHandler_delegates (a : HttpBasicAuthenticator) (delegate : HandlerFunc)
    (writer : ResponseWriter) (request : Request) :
    (a.AuthHandler delegate writer request
      = delegate writer
          (if (a.authenticationStore.userId request).2
            then a.setUserId request (a.authenticationStore.userId request).1 else request))
    ∧ (∀ userId, a.authenticationStore.userId request = (userId, true) →
        a.AuthHandler delegate writer request = delegate writer (a.setUserId request userId)
        ∧ a.UserId (a.setUserId request userId) = userId
        ∧ (a.IsAuthenticated (a.setUserId request userId) = true ↔ userId ≠ "")
        ∧ a.setUserId request userId = { request with ctx := ⟨userId⟩ })
    ∧ (∀ userId, a.authenticationStore.userId request = (userId, false) →
        a.AuthHandler delegate writer request = delegate writer request) := by
  refine ⟨?_, ?_, ?_⟩
  · unfold HttpBasicAuthenticator.AuthHandler
    rcases h : a.authenticationStore.userId request with ⟨u, b⟩
    cases b <;> simp
  · intro userId h
    refine ⟨by simp [HttpBasicAuthenticator.AuthHandler, h], rfl, ?_, rfl⟩
    rw [IsAuthenticated_iff, UserId_setUserId]
  · intro userId h
    simp [HttpBasicAuthenticator.AuthHandler, h]

/-- The two branches of `ServeHTTP`, by the result of the Basic-Auth check. -/
theorem ServeHTTP_eq (a : HttpBasicAuthenticator)
    (RedirectToViewMode : ResponseWriter → Request → ResponseWriter)
    (writer : ResponseWriter) (request : Request) :
    a.ServeHTTP RedirectToViewMode writer request
      = if a.authenticationHandler.CheckAuth request ≠ "" then
          (RedirectToViewMode
            (a.authenticationStore.setUserId writer (a.checkAuth request)
              (a.authenticationHandler.CheckAuth request))
            (a.checkAuth request), a.checkAuth request)
        else (a.authenticationHandler.RequireAuth writer (a.checkAuth request),
          a.checkAuth request) := by
  have hu : a.UserId (a.checkAuth request) = a.authenticationHandler.CheckAuth request := rfl
  unfold HttpBasicAuthenticator.ServeHTTP
  by_cases h : a.authenticationHandler.CheckAuth request = ""
  · have hna : a.IsAuthenticated (a.checkAuth request) = false := by
      rw [← Bool.not_eq_true, IsAuthenticated_iff, hu]
      simp [h]
    simp [hna, h]
  · have hia : a.IsAuthenticated (a.checkAuth request) = true := by
      rw [IsAuthenticated_iff, hu]
      exact h
    simp [hia, h, hu]

/-- C6. `ServeHTTP` does exactly one of two things, decided by
`u = CheckAuth(request)`, which it stores as the user id of the request: when
`u` is not empty the response is the redirect to view mode of what the
session store's `setUserId` made of the writer for `u`, and no challenge is
issued; when `u` is empty the response is the 401 challenge of `RequireAuth`
on the writer as it came, whatever the session store and the redirect are
(neither is called), and the request is not authenticated. -/
theorem C6_serveHTTP_login (a : HttpBasicAuthenticator)
    (RedirectToViewMode : ResponseWriter → Request → ResponseWriter)
    (writer : ResponseWriter) (request : Request) :
    (a.ServeHTTP RedirectToViewMode writer request
      = if a.authenticationHandler.CheckAuth request ≠ "" then
          (RedirectToViewMode
            (a.authenticationStore.setUserId writer (a.checkAuth request)
              (a.authenticationHandler.CheckAuth request))
            (a.checkAuth request), a.checkAuth request)
        else (a.authenticationHandler.RequireAuth writer (a.checkAuth request),
          a.checkAuth request))
    ∧ a.UserId (a.ServeHTTP RedirectToViewMode writer request).2
        = a.authenticationHandler.CheckAuth request
    ∧ (a.IsAuthenticated (a.ServeHTTP RedirectToViewMode writer request).2 = true
        ↔ a.authenticationHandler.CheckAuth request ≠ "")
    ∧ (a.authenticationHandler.CheckAuth request = "" →
        ∀ (store : cookieAuthenticationStore)
          (redirect : ResponseWriter → Request → ResponseWriter),
          HttpBasicAuthenticator.ServeHTTP ⟨a.authenticationHandler, store⟩ redirect writer
              request
            = (a.authenticationHandler.RequireAuth writer (a.checkAuth request),
                a.checkAuth request))
    ∧ (a.authenticationHandler.RequireAuth ResponseWriter.fresh request).status = some 401
    ∧ (a.authenticationHandler.RequireAuth ResponseWriter.fresh request).header
        = [("WWW-Authenticate", "Basic realm=\x22" ++ a.authenticationHandler.Realm ++ "\x22")]
      := by
  have hu : a.UserId (a.checkAuth request) = a.authenticationHandler.CheckAuth request := rfl
  have hS := ServeHTTP_eq a RedirectToViewMode writer request
  have h2 : (a.ServeHTTP RedirectToViewMode writer request).2 = a.checkAuth request := by
    rw [hS]
    split <;> rfl
  refine ⟨hS, ?_, ?_, ?_, ?_, ?_⟩
  · rw [h2, hu]
  · rw [h2, IsAuthenticated_iff, hu]
  · intro h store redirect
    have hS2 := ServeHTTP_eq ⟨a.authenticationHandler, store⟩ redirect writer request
    simp only [h, ne_eq, not_true_eq_false, if_false] at hS2
    exact hS2
  · rfl
  · rfl

/-- C7, refuted as stated: a request made Authenticated from the session
cookie of `alice` by `AuthHandler`, and carrying no `Authorization` header,
leaves `ServeHTTP` unauthenticated, with an empty user id and the 401
challenge as response. -/
theorem C7_counterexample :
    NewHttpBasicAuthenticator.IsAuthenticated
        (NewHttpBasicAuthenticator.setUserId sample.cookieRequest "alice") = true
    ∧ NewHttpBasicAuthenticator.UserId
        (NewHttpBasicAuthenticator.AuthHandler
          (NewHttpBasicAuthenticator.ServeHTTP sample.redirect)
          ResponseWriter.fresh sample.cookieRequest).2 = ""
    ∧ NewHttpBasicAuthenticator.IsAuthenticated
        (NewHttpBasicAuthenticator.AuthHandler
          (NewHttpBasicAuthenticator.ServeHTTP sample.redirect)
          ResponseWriter.fresh sample.cookieRequest).2 = false
    ∧ (NewHttpBasicAuthenticator.AuthHandler
          (NewHttpBasicAuthenticator.ServeHTTP sample.redirect)
          ResponseWriter.fresh sample.cookieRequest).1.status = some 401 := by
  refine ⟨?_, ?_, ?_, ?_⟩ <;> decide

/-- C7, as amended. `checkAuth`, and `ServeHTTP` through it, set the user id
of the request to `CheckAuth(request)` whatever it was before: a request
that was Authenticated with `userId` is left authenticated with the same
`userId` iff `CheckAuth(request)` yields that `userId`, and a request
without `Authorization` header is left unauthenticated. A request that
carries a valid session cookie is authenticated when the delegate of
`AuthHandler` runs. -/
theorem C7_checkAuth_overwrites (a : HttpBasicAuthenticator)
    (RedirectToViewMode : ResponseWriter → Request → ResponseWriter)
    (delegate : HandlerFunc) (writer : ResponseWriter) (request : Request) (userId : String)
    (hne : userId ≠ "") :
    (a.UserId (a.checkAuth (a.setUserId request userId))
        = a.authenticationHandler.CheckAuth (a.setUserId request userId))
    ∧ (a.ServeHTTP RedirectToViewMode writer (a.setUserId request userId)).2
        = a.checkAuth (a.setUserId request userId)
    ∧ ((a.IsAuthenticated (a.checkAuth (a.setUserId request userId)) = true
          ∧ a.UserId (a.checkAuth (a.setUserId request userId)) = userId)
        ↔ a.authenticationHandler.CheckAuth (a.setUserId request userId) = userId)
    ∧ (request.Authorization = none →
        a.IsAuthenticated (a.checkAuth (a.setUserId request userId)) = false)
    ∧ (a.authenticationStore.userId request = (userId, true) →
        a.AuthHandler delegate writer request = delegate writer (a.setUserId request userId)
        ∧ a.IsAuthenticated (a.setUserId request userId) = true
        ∧ a.UserId (a.setUserId request userId) = userId) := by
  have hu : ∀ r, a.UserId (a.checkAuth r) = a.authenticationHandler.CheckAuth r := fun _ => rfl
  refine ⟨hu _, ?_, ?_, ?_, ?_⟩
  · unfold HttpBasicAuthenticator.ServeHTTP
    simp only []
    split <;> rfl
  · rw [IsAuthenticated_iff, hu]
    constructor
    · exact fun h => h.2
    · intro h
      exact ⟨by rw [h]; exact hne, h⟩
  · intro hnone
    have hc : a.authenticationHandler.CheckAuth (a.setUserId request userId) = "" := by
      simp [auth.BasicAuth.CheckAuth, HttpBasicAuthenticator.setUserId, context.Context.Save,
        hnone]
    rw [← Bool.not_eq_true, IsAuthenticated_iff, hu, hc]
    simp
  · intro h
    refine ⟨by simp [HttpBasicAuthenticator.AuthHandler, h], ?_, rfl⟩
    rw [IsAuthenticated_iff, UserId_setUserId]
    exact hne

/-- C7 as amended, at the request with the session cookie of `alice`. -/
theorem C7_checkAuth_overwrites_witness :
    ("alice" ≠ "" ∧ sample.cookieRequest.Authorization = none)
    ∧ NewHttpBasicAuthenticator.IsAuthenticated
        (NewHttpBasicAuthenticator.checkAuth
          (NewHttpBasicAuthenticator.setUserId sample.cookieRequest "alice")) = false :=
  ⟨⟨by decide, rfl⟩,
    (C7_checkAuth_overwrites NewHttpBasicAuthenticator sample.redirect
      (NewHttpBasicAuthenticator.ServeHTTP sample.redirect) ResponseWriter.fresh
      sample.cookieRequest "alice" (by decide)).2.2.2.1 rfl⟩

end AuthenticatorTheorems

/-! ## Theorems about package `editor` -/

section EditorTheorems

open filer editor

/-- The editor always answers: `ServeHTTP` returns for every request. -/
theorem ServeHTTP_returns (h : Handler) (w : World) (writer : ResponseWriter)
    (request : Request) : (h.ServeHTTP w writer request).isSome = true := by
  unfold Handler.ServeHTTP
  by_cases hm : (request.Method != "GET") = true
  · simp [hm]
  · simp only [hm]
    have hr := ReadString_returns h.filer w request
    unfold Handler.serveGET
    rcases hR : h.filer.ReadString w request with _ | ⟨content, f1, w1⟩
    · simp [hR] at hr
    · simp only []
      cases he : f1.Err with
      | some e => by_cases hp : IsPathNotFoundError e = true <;> simp [hp]
      | none =>
        simp only []
        split
        · rfl
        · split <;> rfl

/-- C8, refuted as stated: the anonymous `GET` on the file of mode `0770`
fails in the filer with `AccessDenied`, and the status written is 500. -/
theorem C8_counterexample :
    (sample.editor.ServeHTTP sample.world ResponseWriter.fresh
        (sample.requestGET "/private")).map
      (fun r => (r.1.status, r.1.body, r.2.1.filer.Err))
    = some (some 500, "Oops, internal server error", some .AccessDenied) := by
  decide

/-- C8, as amended. For every `GET` request for which the read of the filer
fails with an `AccessDenied` error, the handler answers through
`serveInternalServerError`: on a writer on which nothing was written yet the
status is 500 (not 403, 401, 200 or 404) and the body is the text of the
internal server error. -/
theorem C8_access_denied_is_500 (h : Handler) (w : World) (writer : ResponseWriter)
    (request : Request) (content : String) (f1 : Filer) (w1 : World) (e : Error)
    (hget : request.Method = "GET") (hfresh : writer.status = none)
    (hread : h.filer.ReadString w request = some (content, f1, w1))
    (herr : f1.Err = some e) (hdenied : IsAccessDeniedError e = true) :
    h.ServeHTTP w writer request
      = some ((writer.WriteHeader 500).Write "Oops, internal server error",
          { h with filer := f1 }, w1)
    ∧ ((writer.WriteHeader 500).Write "Oops, internal server error").status = some 500
    ∧ ((writer.WriteHeader 500).Write "Oops, internal server error").body
        = writer.body ++ "Oops, internal server error" := by
  have he : e = .AccessDenied := by
    cases e <;> simp_all [IsAccessDeniedError]
  subst he
  refine ⟨?_, ?_, ?_⟩
  · simp [Handler.ServeHTTP, Handler.serveGET, hget, hread, herr, IsPathNotFoundError,
      Handler.serveInternalServerError]
  · simp [ResponseWriter.WriteHeader, ResponseWriter.Write, hfresh]
  · simp [ResponseWriter.WriteHeader, ResponseWriter.Write, hfresh]

/-- C8 as amended, at the anonymous `GET` on the file of mode `0770`. -/
theorem C8_access_denied_is_500_witness :
    ((sample.requestGET "/private").Method = "GET"
      ∧ ResponseWriter.fresh.status = none
      ∧ sample.editor.filer.ReadString sample.world (sample.requestGET "/private")
          = some ("", sample.failed, sample.world)
      ∧ sample.failed.Err = some .AccessDenied
      ∧ IsAccessDeniedError .AccessDenied = true)
    ∧ ((ResponseWriter.fresh.WriteHeader 500).Write "Oops, internal server error").status
        = some 500 :=
  have hread : sample.editor.filer.ReadString sample.world (sample.requestGET "/private")
      = some ("", sample.failed, sample.world) := by
    have h := OpenReader_anonymous sample.anonymous sample.world (sample.requestGET "/private")
      "/srv/private" ⟨0o770, false, "secret"⟩ rfl rfl rfl (by decide)
    have hb : worldRead 0o770 = false := by decide
    simp only [hb] at h
    show sample.anonymous.ReadString sample.world (sample.requestGET "/private") = _
    unfold Filer.ReadString
    rw [h]
    rfl
  ⟨⟨rfl, rfl, hread, rfl, rfl⟩,
    (C8_access_denied_is_500 sample.editor sample.world ResponseWriter.fresh
      (sample.requestGET "/private") "" sample.failed sample.world .AccessDenied rfl rfl hread
      rfl rfl).2.1⟩

end EditorTheorems

/-! ## Theorems about the credentials -/

section CredentialTheorems

open authenticator

/-- The stored entry of the sample user is the MD5-crypt hash of `hello`
under its own salt. -/
theorem MD5Crypt_hello :
    auth.MD5Crypt "hello" "dlPL2MqE" "$1$" = "$1$dlPL2MqE$oQmn16q49SqdmhenQuNgs1" := by
  decide!

/-- The stored entry of the sample user is not the hash of `wrong`. -/
theorem MD5Crypt_wrong :
    auth.MD5Crypt "wrong" "dlPL2MqE" "$1$" ≠ "$1$dlPL2MqE$oQmn16q49SqdmhenQuNgs1" := by
  decide!

/-- The parts of the stored entry of the sample user. -/
theorem splitN_sample :
    auth.splitN '$' 4 "$1$dlPL2MqE$oQmn16q49SqdmhenQuNgs1".data
      = ["".data, "1".data, "dlPL2MqE".data, "oQmn16q49SqdmhenQuNgs1".data] := by
  decide

/-- Verification of a secret of the sample user compares its hash with the
stored entry. -/
theorem verify_test (s : String) :
    NewHttpBasicAuthenticator.authenticationHandler.verify "test" s
      = (auth.MD5Crypt s "dlPL2MqE" "$1$" == "$1$dlPL2MqE$oQmn16q49SqdmhenQuNgs1") := by
  have hs : provideSampleSecret "test" authenticationRealmName
      = "$1$dlPL2MqE$oQmn16q49SqdmhenQuNgs1" := rfl
  simp only [auth.BasicAuth.verify, NewHttpBasicAuthenticator, auth.NewBasicAuthenticator, hs,
    splitN_sample]
  rfl

/-- C9. For every realm the secret provider returns the stored MD5-crypt
entry iff the user name is `test`, and the empty string for every other
user name; hence `verify("test", "hello")` is true, `verify("test", "wrong")`
is false, and `verify(u, s)` is false for every `u` other than `test`. -/
theorem C9_sample_credentials :
    (∀ user realm : String,
      (provideSampleSecret user realm = "$1$dlPL2MqE$oQmn16q49SqdmhenQuNgs1" ↔ user = "test")
      ∧ (provideSampleSecret user realm = "" ↔ user ≠ "test"))
    ∧ NewHttpBasicAuthenticator.authenticationHandler.Secrets = provideSampleSecret
    ∧ NewHttpBasicAuthenticator.authenticationHandler.verify "test" "hello" = true
    ∧ NewHttpBasicAuthenticator.authenticationHandler.verify "test" "wrong" = false
    ∧ ∀ u s : String, u ≠ "test" →
        NewHttpBasicAuthenticator.authenticationHandler.verify u s = false := by
  refine ⟨?_, rfl, ?_, ?_, ?_⟩
  · intro user realm
    by_cases h : user = "test" <;> simp [provideSampleSecret, h]
  · rw [verify_test, MD5Crypt_hello]
    rfl
  · rw [verify_test]
    simpa using MD5Crypt_wrong
  · intro u s hu
    have hs : provideSampleSecret u authenticationRealmName = "" := by
      simp [provideSampleSecret, hu]
    simp only [auth.BasicAuth.verify, NewHttpBasicAuthenticator, auth.NewBasicAuthenticator, hs]
    rfl

end CredentialTheorems

end gone
